import Mathlib

/-!
Verification of the command and configuration model of PWAsForFirefox
(file src/native/src/console/app.rs), a shallow embedding in Lean 4.

Command structures mirror the clap-derived Rust structs field by field.
Rust Option becomes Lean Option; the doubly-nested Option used for
tri-state update fields becomes Option (Option _); Url, Ulid and PathBuf
payloads are kept abstract as String / Nat since none of the studied
properties inspects their internal structure.
-/

set_option autoImplicit false

namespace PWAsForFirefox

/-- URLs kept abstract: the properties under study never inspect URL structure. -/
abbrev Url := String

/-- Filesystem paths kept abstract. -/
abbrev Path := String

/-- Embedding of struct HTTPClientConfig (app.rs lines 253 to 270): two optional
lists of certificate paths and two danger-override booleans. -/
structure HTTPClientConfig where
  tls_root_certificates_der : Option (List Path)
  tls_root_certificates_pem : Option (List Path)
  tls_danger_accept_invalid_certs : Bool
  tls_danger_accept_invalid_hostnames : Bool
  deriving Repr, DecidableEq

/-- Embedding of struct SiteLaunchCommand (app.rs lines 41 to 61).
The macOS-only hidden field direct_launch is cfg-gated out of the common build
and omitted. The clap attributes conflicts_with on url and protocol declare
the mutual exclusion checked by checkSiteLaunch below. -/
structure SiteLaunchCommand where
  id : Nat
  arguments : List String
  url : Option Url
  protocol : Option (Option Url)
  deriving Repr, DecidableEq

/-- Embedding of struct SiteInstallCommand (app.rs lines 63 to 109). -/
structure SiteInstallCommand where
  manifest_url : Url
  document_url : Option Url
  profile : Option Nat
  start_url : Option Url
  icon_url : Option Url
  name : Option String
  description : Option String
  categories : Option (List String)
  keywords : Option (List String)
  system_integration : Bool
  client : HTTPClientConfig
  deriving Repr, DecidableEq

/-- Embedding of struct SiteUninstallCommand (app.rs lines 111 to 123). -/
structure SiteUninstallCommand where
  id : Nat
  quiet : Bool
  system_integration : Bool
  deriving Repr, DecidableEq

/-- Embedding of struct SiteUpdateCommand (app.rs lines 125 to 177): the four
tri-state fields are doubly-nested options, categories and keywords and the two
handler lists are plain optional lists, and the three negating flags are plain
booleans. -/
structure SiteUpdateCommand where
  id : Nat
  start_url : Option (Option Url)
  icon_url : Option (Option Url)
  name : Option (Option String)
  description : Option (Option String)
  categories : Option (List String)
  keywords : Option (List String)
  enabled_url_handlers : Option (List String)
  enabled_protocol_handlers : Option (List String)
  update_manifest : Bool
  update_icons : Bool
  system_integration : Bool
  client : HTTPClientConfig
  deriving Repr, DecidableEq

/-- Embedding of struct ProfileUpdateCommand (app.rs lines 224 to 236). -/
structure ProfileUpdateCommand where
  id : Nat
  name : Option (Option String)
  description : Option (Option String)
  deriving Repr, DecidableEq

/-- Modelled from the spec: the persisted Site record of section 3 of the spec.
The record store and the Site struct itself are outside src, so the record is
built from the field list the spec gives. -/
@[ext]
structure Site where
  id : Nat
  manifest_url : Url
  document_url : Url
  profile_id : Nat
  start_url : Option Url
  icon_url : Option Url
  name : Option String
  description : Option String
  categories : Option (List String)
  keywords : Option (List String)
  enabled_url_handlers : List String
  enabled_protocol_handlers : List String
  system_integration : Bool
  deriving Repr, DecidableEq

/-- Modelled from the spec: the persisted Profile record of section 3 of the spec. -/
@[ext]
structure Profile where
  id : Nat
  name : Option String
  description : Option String
  deriving Repr, DecidableEq

/-- Modelled from the spec: the tri-state resolution rule of the table in
section 4.1 — absent leaves the existing field unchanged, present-but-empty
resets the field to its unset state, present-with-value overwrites it. -/
def resolveTriState {α : Type} (cmd : Option (Option α)) (old : Option α) : Option α :=
  match cmd with
  | none => old
  | some none => none
  | some (some v) => some v

/-- Modelled from the spec: resolution of the plain-optional list fields of an
Update command against an optional record field (sections 3 and 9) — absent
leaves the record field unchanged, present sets the given list verbatim. -/
def resolveOptList (cmd : Option (List String)) (old : Option (List String)) :
    Option (List String) :=
  match cmd with
  | none => old
  | some l => some l

/-- Modelled from the spec: resolution of a plain-optional list command field
against a non-optional record field — absent leaves it unchanged, present
sets the given list verbatim. -/
def resolveList (cmd : Option (List String)) (old : List String) : List String :=
  match cmd with
  | none => old
  | some l => l

/-- Modelled from the spec: the Update Resolution Engine for Sites
(section 4.3) — a pure function of the existing record and the parsed command.
Each tri-state field follows the table of section 4.1, the plain-optional list
fields follow the absent-unchanged or present-set rule, and every other field
of the existing record is carried over unchanged. -/
def resolveSiteUpdate (cmd : SiteUpdateCommand) (r : Site) : Site :=
  { r with
    start_url := resolveTriState cmd.start_url r.start_url
    icon_url := resolveTriState cmd.icon_url r.icon_url
    name := resolveTriState cmd.name r.name
    description := resolveTriState cmd.description r.description
    categories := resolveOptList cmd.categories r.categories
    keywords := resolveOptList cmd.keywords r.keywords
    enabled_url_handlers := resolveList cmd.enabled_url_handlers r.enabled_url_handlers
    enabled_protocol_handlers :=
      resolveList cmd.enabled_protocol_handlers r.enabled_protocol_handlers }

/-- Modelled from the spec: the Update Resolution Engine for Profiles
(section 4.3) — name and description follow the tri-state table, the id is
carried over unchanged. -/
def resolveProfileUpdate (cmd : ProfileUpdateCommand) (r : Profile) : Profile :=
  { r with
    name := resolveTriState cmd.name r.name
    description := resolveTriState cmd.description r.description }

/-- Long option name of the url flag of site launch. -/
def urlFlag : String := "url"

/-- Long option name of the protocol flag of site launch. -/
def protocolFlag : String := "protocol"

/-- Validation error of the constraint checker: two mutually exclusive flags
were both given, identified by their long option names. -/
inductive CheckError where
  | conflictingFlags (first second : String) : CheckError
  deriving Repr, DecidableEq

/-- Constraint check on a parsed site launch command, embedding the two clap
conflicts_with attributes on url and protocol (app.rs lines 50 and 54): the
command is rejected when both flags are present, with an error naming both
flags. The check is a pure function of the command alone — it takes no record
and precedes any record lookup or resolution in the control flow of
section 2 of the spec. -/
def checkSiteLaunch (c : SiteLaunchCommand) : Except CheckError SiteLaunchCommand :=
  if c.url.isSome && c.protocol.isSome then
    Except.error (CheckError.conflictingFlags urlFlag protocolFlag)
  else
    Except.ok c

/-- Parsing of one negating boolean flag, embedding the clap attribute
ArgAction SetFalse (app.rs lines 103, 121, 163, 167, 171): the field defaults
to true and is set to false exactly when the no-x flag is present. -/
def negatingFlag (flagPresent : Bool) : Bool := !flagPresent

/-- Assembly of the HTTP client configuration from its four flags, embedding
the clap derive on HTTPClientConfig: each flag feeds exactly its own field,
the list flags default to absent and the danger booleans default to false. -/
def parseHTTPClientConfig (der pem : Option (List Path)) (certs hostnames : Bool) :
    HTTPClientConfig :=
  { tls_root_certificates_der := der
    tls_root_certificates_pem := pem
    tls_danger_accept_invalid_certs := certs
    tls_danger_accept_invalid_hostnames := hostnames }

/-- Mapping of site install flags to the parsed command, embedding the clap
derive on SiteInstallCommand: every optional flag feeds its own field
unchanged and the negating system-integration flag is inverted. -/
def parseSiteInstall (manifest_url : Url) (document_url : Option Url)
    (profile : Option Nat) (start_url icon_url : Option Url)
    (name description : Option String) (categories keywords : Option (List String))
    (noSystemIntegration : Bool) (der pem : Option (List Path))
    (certs hostnames : Bool) : SiteInstallCommand :=
  { manifest_url := manifest_url
    document_url := document_url
    profile := profile
    start_url := start_url
    icon_url := icon_url
    name := name
    description := description
    categories := categories
    keywords := keywords
    system_integration := negatingFlag noSystemIntegration
    client := parseHTTPClientConfig der pem certs hostnames }

/-- Mapping of site uninstall flags to the parsed command. -/
def parseSiteUninstall (id : Nat) (quiet noSystemIntegration : Bool) :
    SiteUninstallCommand :=
  { id := id
    quiet := quiet
    system_integration := negatingFlag noSystemIntegration }

/-- Mapping of site update flags to the parsed command, embedding the clap
derive on SiteUpdateCommand. -/
def parseSiteUpdate (id : Nat) (start_url icon_url : Option (Option Url))
    (name description : Option (Option String))
    (categories keywords handlersUrl handlersProtocol : Option (List String))
    (noManifestUpdates noIconUpdates noSystemIntegration : Bool)
    (der pem : Option (List Path)) (certs hostnames : Bool) : SiteUpdateCommand :=
  { id := id
    start_url := start_url
    icon_url := icon_url
    name := name
    description := description
    categories := categories
    keywords := keywords
    enabled_url_handlers := handlersUrl
    enabled_protocol_handlers := handlersProtocol
    update_manifest := negatingFlag noManifestUpdates
    update_icons := negatingFlag noIconUpdates
    system_integration := negatingFlag noSystemIntegration
    client := parseHTTPClientConfig der pem certs hostnames }

/-- Modelled from the spec: the Crockford base32 alphabet of the fixed-length
sortable identifier encoding of section 4.4, in encoding order; the ulid crate
supplying this encoding is outside src. -/
def crockfordAlphabet : List Char := ("0123456789ABCDEFGHJKMNPQRSTVWXYZ").data

/-- Digit value to Crockford base32 character. -/
def encodeChar (d : Nat) : Char := crockfordAlphabet.getD d ('0')

/-- Crockford base32 character back to its digit value — its position in the
alphabet; characters outside the alphabet are rejected. -/
def decodeChar (c : Char) : Option Nat :=
  crockfordAlphabet.findIdx? (fun x => x == c)

/-- Fixed-width big-endian base32 digit list of a natural number: the first
argument is the width in digits, most significant digit first. -/
def toBase32 : Nat → Nat → List Char
  | 0, _ => []
  | k + 1, n => encodeChar (n / 32 ^ k % 32) :: toBase32 k n

/-- Modelled from the spec: rendering of a 128-bit identifier as its 26
character fixed-length sortable text encoding (section 4.4). -/
def ulidRender (n : Nat) : String := String.mk (toBase32 26 n)

/-- Big-endian base32 decoding accumulator. -/
def fromBase32Aux : Nat → List Char → Option Nat
  | acc, [] => some acc
  | acc, c :: cs =>
    match decodeChar c with
    | none => none
    | some d => fromBase32Aux (acc * 32 + d) cs

/-- Modelled from the spec: parsing of an identifier string, rejecting any
input of the wrong length or outside the encoding alphabet (section 4.4). -/
def ulidParse (s : String) : Option Nat :=
  if s.length = 26 then fromBase32Aux 0 s.data else none

/-- Modelled from the spec: identifier generation of section 4.4 — a 128-bit
value whose high component is derived from a 48-bit timestamp and whose low
component is an 80-bit random value. -/
def ulidGenerate (timestamp randomness : Nat) : Nat :=
  timestamp % 2 ^ 48 * 2 ^ 80 + randomness % 2 ^ 80

/-- Concrete HTTP client configuration with every flag at its default. -/
def defaultTLS : HTTPClientConfig := parseHTTPClientConfig none none false false

/-- Concrete existing Site record used by the concrete witnesses. -/
def siteR : Site :=
  { id := 1
    manifest_url := ("https://example.com/manifest.json")
    document_url := ("https://example.com/")
    profile_id := 0
    start_url := some ("https://example.com/start")
    icon_url := none
    name := some ("Example")
    description := some ("old")
    categories := some [("news")]
    keywords := none
    enabled_url_handlers := []
    enabled_protocol_handlers := []
    system_integration := true }

/-- Concrete existing Profile record used by the concrete witnesses. -/
def profR : Profile := { id := 2, name := some ("Work"), description := some ("old") }

/-- Concrete site update command with every optional field absent. -/
def noopSiteUpdate : SiteUpdateCommand :=
  { id := 1
    start_url := none
    icon_url := none
    name := none
    description := none
    categories := none
    keywords := none
    enabled_url_handlers := none
    enabled_protocol_handlers := none
    update_manifest := true
    update_icons := true
    system_integration := true
    client := defaultTLS }

/-- Concrete profile update command with every optional field absent. -/
def noopProfileUpdate : ProfileUpdateCommand := { id := 2, name := none, description := none }

/-- Concrete site update command resetting every tri-state field. -/
def resetSiteUpdate : SiteUpdateCommand :=
  { noopSiteUpdate with
    start_url := some none
    icon_url := some none
    name := some none
    description := some none }

/-- Concrete profile update command resetting name and description. -/
def resetProfileUpdate : ProfileUpdateCommand :=
  { id := 2, name := some none, description := some none }

/-- Concrete site update command setting two tri-state fields at once. -/
def twoFieldSiteUpdate : SiteUpdateCommand :=
  { noopSiteUpdate with
    name := some (some ("A"))
    description := some (some ("B")) }

/-- Concrete site update command setting the categories list. -/
def setCatsSiteUpdate : SiteUpdateCommand :=
  { noopSiteUpdate with categories := some [("x")] }

/-! Helper lemmas about the three resolution rules. -/

/-- Resolving the same tri-state command field twice in a row gives the same
value as resolving it once. -/
theorem resolveTriState_idem {α : Type} (cmd : Option (Option α)) (old : Option α) :
    resolveTriState cmd (resolveTriState cmd old) = resolveTriState cmd old := by
  cases cmd with
  | none => rfl
  | some o => cases o <;> rfl

/-- Resolving the same plain-optional list command field twice in a row gives
the same value as resolving it once. -/
theorem resolveOptList_idem (cmd : Option (List String)) (old : Option (List String)) :
    resolveOptList cmd (resolveOptList cmd old) = resolveOptList cmd old := by
  cases cmd <;> rfl

/-- Resolving the same handler-list command field twice in a row gives the
same value as resolving it once. -/
theorem resolveList_idem (cmd : Option (List String)) (old : List String) :
    resolveList cmd (resolveList cmd old) = resolveList cmd old := by
  cases cmd <;> rfl

/-- C1: for every existing Site or Profile record and every tri-state field of
the matching Update command (start_url, icon_url, name, description on Site
Update; name, description on Profile Update), resolving an Update command in
which that field is absent yields a result record whose field equals the
existing record field. -/
theorem claim1_absent_field_unchanged :
    (∀ (cmd : SiteUpdateCommand) (r : Site),
      (cmd.start_url = none → (resolveSiteUpdate cmd r).start_url = r.start_url) ∧
      (cmd.icon_url = none → (resolveSiteUpdate cmd r).icon_url = r.icon_url) ∧
      (cmd.name = none → (resolveSiteUpdate cmd r).name = r.name) ∧
      (cmd.description = none → (resolveSiteUpdate cmd r).description = r.description)) ∧
    (∀ (cmd : ProfileUpdateCommand) (r : Profile),
      (cmd.name = none → (resolveProfileUpdate cmd r).name = r.name) ∧
      (cmd.description = none → (resolveProfileUpdate cmd r).description = r.description)) := by
  constructor
  · intro cmd r
    refine ⟨?_, ?_, ?_, ?_⟩ <;> intro h <;>
      simp [resolveSiteUpdate, resolveTriState, h]
  · intro cmd r
    refine ⟨?_, ?_⟩ <;> intro h <;>
      simp [resolveProfileUpdate, resolveTriState, h]

/-- Witness for C1: a concrete all-absent update against concrete records
leaves start_url of the Site and name of the Profile unchanged. -/
theorem claim1_witness :
    (resolveSiteUpdate noopSiteUpdate siteR).start_url = siteR.start_url ∧
    (resolveProfileUpdate noopProfileUpdate profR).name = profR.name :=
  ⟨(claim1_absent_field_unchanged.1 noopSiteUpdate siteR).1 rfl,
   (claim1_absent_field_unchanged.2 noopProfileUpdate profR).1 rfl⟩

/-- C2: for every existing record and every tri-state field of the matching
Update command, resolving an Update command in which that field is
present-but-empty yields a result record whose field is the unset value none,
whatever the prior value of the field was — in particular the reset is legal
when the field was already unset. -/
theorem claim2_empty_field_reset :
    (∀ (cmd : SiteUpdateCommand) (r : Site),
      (cmd.start_url = some none → (resolveSiteUpdate cmd r).start_url = none) ∧
      (cmd.icon_url = some none → (resolveSiteUpdate cmd r).icon_url = none) ∧
      (cmd.name = some none → (resolveSiteUpdate cmd r).name = none) ∧
      (cmd.description = some none → (resolveSiteUpdate cmd r).description = none)) ∧
    (∀ (cmd : ProfileUpdateCommand) (r : Profile),
      (cmd.name = some none → (resolveProfileUpdate cmd r).name = none) ∧
      (cmd.description = some none → (resolveProfileUpdate cmd r).description = none)) := by
  constructor
  · intro cmd r
    refine ⟨?_, ?_, ?_, ?_⟩ <;> intro h <;>
      simp [resolveSiteUpdate, resolveTriState, h]
  · intro cmd r
    refine ⟨?_, ?_⟩ <;> intro h <;>
      simp [resolveProfileUpdate, resolveTriState, h]

/-- Witness for C2: a concrete all-reset update clears start_url of the Site
(previously set), icon_url of the Site (already unset), and description of the
Profile. -/
theorem claim2_witness :
    (resolveSiteUpdate resetSiteUpdate siteR).start_url = none ∧
    (resolveSiteUpdate resetSiteUpdate siteR).icon_url = none ∧
    (resolveProfileUpdate resetProfileUpdate profR).description = none :=
  ⟨(claim2_empty_field_reset.1 resetSiteUpdate siteR).1 rfl,
   (claim2_empty_field_reset.1 resetSiteUpdate siteR).2.1 rfl,
   (claim2_empty_field_reset.2 resetProfileUpdate profR).2 rfl⟩

/-- C4: resolving the same Update command a second time, against the result of
the first resolution, yields the same record as the first resolution, for
Sites and for Profiles. -/
theorem claim4_update_idempotent :
    (∀ (cmd : SiteUpdateCommand) (r : Site),
      resolveSiteUpdate cmd (resolveSiteUpdate cmd r) = resolveSiteUpdate cmd r) ∧
    (∀ (cmd : ProfileUpdateCommand) (r : Profile),
      resolveProfileUpdate cmd (resolveProfileUpdate cmd r) = resolveProfileUpdate cmd r) := by
  constructor
  · intro cmd r
    ext1 <;>
      simp [resolveSiteUpdate, resolveTriState_idem, resolveOptList_idem, resolveList_idem]
  · intro cmd r
    ext1 <;>
      simp [resolveProfileUpdate, resolveTriState_idem]

/-- Counterexample to C3 as stated: a concrete update command in which the
name field is present-with-value yet whose resolution does not carry every
other field of the record over unchanged, because the command also sets the
description field. -/
theorem claim3_counterexample :
    twoFieldSiteUpdate.name = some (some ("A")) ∧
    ¬ (resolveSiteUpdate twoFieldSiteUpdate siteR).description = siteR.description := by
  constructor
  · rfl
  · decide

/-- C3 (amended): for every existing record, tri-state field f and value v,
resolving an Update command in which f is present-with-value v yields a result
record whose field f equals v; and every field of the record whose
corresponding command field is absent, as well as every field with no command
counterpart, is carried over unchanged. -/
theorem claim3_point_update :
    (∀ (cmd : SiteUpdateCommand) (r : Site),
      (∀ v, cmd.start_url = some (some v) → (resolveSiteUpdate cmd r).start_url = some v) ∧
      (∀ v, cmd.icon_url = some (some v) → (resolveSiteUpdate cmd r).icon_url = some v) ∧
      (∀ v, cmd.name = some (some v) → (resolveSiteUpdate cmd r).name = some v) ∧
      (∀ v, cmd.description = some (some v) → (resolveSiteUpdate cmd r).description = some v) ∧
      (cmd.start_url = none → (resolveSiteUpdate cmd r).start_url = r.start_url) ∧
      (cmd.icon_url = none → (resolveSiteUpdate cmd r).icon_url = r.icon_url) ∧
      (cmd.name = none → (resolveSiteUpdate cmd r).name = r.name) ∧
      (cmd.description = none → (resolveSiteUpdate cmd r).description = r.description) ∧
      (cmd.categories = none → (resolveSiteUpdate cmd r).categories = r.categories) ∧
      (cmd.keywords = none → (resolveSiteUpdate cmd r).keywords = r.keywords) ∧
      (cmd.enabled_url_handlers = none →
        (resolveSiteUpdate cmd r).enabled_url_handlers = r.enabled_url_handlers) ∧
      (cmd.enabled_protocol_handlers = none →
        (resolveSiteUpdate cmd r).enabled_protocol_handlers = r.enabled_protocol_handlers) ∧
      (resolveSiteUpdate cmd r).id = r.id ∧
      (resolveSiteUpdate cmd r).manifest_url = r.manifest_url ∧
      (resolveSiteUpdate cmd r).document_url = r.document_url ∧
      (resolveSiteUpdate cmd r).profile_id = r.profile_id ∧
      (resolveSiteUpdate cmd r).system_integration = r.system_integration) ∧
    (∀ (cmd : ProfileUpdateCommand) (r : Profile),
      (∀ v, cmd.name = some (some v) → (resolveProfileUpdate cmd r).name = some v) ∧
      (∀ v, cmd.description = some (some v) →
        (resolveProfileUpdate cmd r).description = some v) ∧
      (cmd.name = none → (resolveProfileUpdate cmd r).name = r.name) ∧
      (cmd.description = none → (resolveProfileUpdate cmd r).description = r.description) ∧
      (resolveProfileUpdate cmd r).id = r.id) := by
  constructor
  · intro cmd r
    refine ⟨?_, ?_, ?_, ?_, ?_, ?_, ?_, ?_, ?_, ?_, ?_, ?_, ?_, ?_, ?_, ?_, ?_⟩ <;>
      first
      | (intro v h
         simp [resolveSiteUpdate, resolveTriState, resolveOptList, resolveList, h])
      | (intro h
         simp [resolveSiteUpdate, resolveTriState, resolveOptList, resolveList, h])
      | simp [resolveSiteUpdate]
  · intro cmd r
    refine ⟨?_, ?_, ?_, ?_, ?_⟩ <;>
      first
      | (intro v h
         simp [resolveProfileUpdate, resolveTriState, h])
      | (intro h
         simp [resolveProfileUpdate, resolveTriState, h])
      | simp [resolveProfileUpdate]

/-- Witness for C3 (amended): the concrete update setting name yields that
name, leaves the absent categories unchanged, keeps the id, and the concrete
profile update keeps the profile id. -/
theorem claim3_witness :
    (resolveSiteUpdate twoFieldSiteUpdate siteR).name = some ("A") ∧
    (resolveSiteUpdate twoFieldSiteUpdate siteR).categories = siteR.categories ∧
    (resolveSiteUpdate twoFieldSiteUpdate siteR).id = siteR.id ∧
    (resolveProfileUpdate resetProfileUpdate profR).id = profR.id := by
  refine ⟨?_, ?_, ?_, ?_⟩
  · exact (claim3_point_update.1 twoFieldSiteUpdate siteR).2.2.1 ("A") rfl
  · exact (claim3_point_update.1 twoFieldSiteUpdate siteR).2.2.2.2.2.2.2.2.1 rfl
  · exact (claim3_point_update.1 twoFieldSiteUpdate siteR).2.2.2.2.2.2.2.2.2.2.2.2.1
  · exact (claim3_point_update.2 resetProfileUpdate profR).2.2.2.2

/-- C5: every site launch command carrying both the url flag and the protocol
flag — the protocol flag possibly present without a value — is rejected by the
constraint check with an error naming both flags. The check is a pure function
of the parsed command alone, so the rejection precedes any record lookup or
resolution. -/
theorem claim5_launch_url_protocol_conflict :
    ∀ (idv : Nat) (args : List String) (u : Url) (p : Option Url),
      checkSiteLaunch { id := idv, arguments := args, url := some u, protocol := some p } =
        Except.error (CheckError.conflictingFlags urlFlag protocolFlag) := by
  intro idv args u p
  rfl

/-- C6: on the parsed Install, Uninstall and Update commands, each negating
boolean field — system_integration on the three commands, update_manifest and
update_icons on Site Update — is true exactly when its no-x flag is absent
from the input and false exactly when the flag is present; the fields are
plain booleans fully determined by the invocation. -/
theorem claim6_negating_flags :
    ∀ (m : Url) (dm : Option Url) (pr : Option Nat) (su iu : Option Url)
      (nm ds : Option String) (ct kw : Option (List String))
      (idv : Nat) (quiet : Bool)
      (tsu tiu : Option (Option Url)) (tnm tds : Option (Option String))
      (uct ukw uh up : Option (List String))
      (der pem : Option (List Path)) (certs hostnames : Bool)
      (noSys1 noSys2 noSys3 noManifest noIcons : Bool),
      ((parseSiteInstall m dm pr su iu nm ds ct kw noSys1 der pem
          certs hostnames).system_integration = true ↔ noSys1 = false) ∧
      ((parseSiteUninstall idv quiet noSys2).system_integration = true ↔ noSys2 = false) ∧
      ((parseSiteUpdate idv tsu tiu tnm tds uct ukw uh up noManifest noIcons noSys3
          der pem certs hostnames).system_integration = true ↔ noSys3 = false) ∧
      ((parseSiteUpdate idv tsu tiu tnm tds uct ukw uh up noManifest noIcons noSys3
          der pem certs hostnames).update_manifest = true ↔ noManifest = false) ∧
      ((parseSiteUpdate idv tsu tiu tnm tds uct ukw uh up noManifest noIcons noSys3
          der pem certs hostnames).update_icons = true ↔ noIcons = false) := by
  intro m dm pr su iu nm ds ct kw idv quiet tsu tiu tnm tds uct ukw uh up
    der pem certs hostnames noSys1 noSys2 noSys3 noManifest noIcons
  refine ⟨?_, ?_, ?_, ?_, ?_⟩
  · cases noSys1 <;> simp [parseSiteInstall, negatingFlag]
  · cases noSys2 <;> simp [parseSiteUninstall, negatingFlag]
  · cases noSys3 <;> simp [parseSiteUpdate, negatingFlag]
  · cases noManifest <;> simp [parseSiteUpdate, negatingFlag]
  · cases noIcons <;> simp [parseSiteUpdate, negatingFlag]

/-- C7: on Site Update, categories and keywords are plain optional lists —
absent leaves the existing record field unchanged, present sets the given
list verbatim — and consequently no update input can turn an explicitly-set
list back into the absent manifest-derived state. -/
theorem claim7_categories_keywords_not_resettable :
    ∀ (cmd : SiteUpdateCommand) (r : Site),
      (cmd.categories = none → (resolveSiteUpdate cmd r).categories = r.categories) ∧
      (∀ l, cmd.categories = some l → (resolveSiteUpdate cmd r).categories = some l) ∧
      (r.categories ≠ none → (resolveSiteUpdate cmd r).categories ≠ none) ∧
      (cmd.keywords = none → (resolveSiteUpdate cmd r).keywords = r.keywords) ∧
      (∀ l, cmd.keywords = some l → (resolveSiteUpdate cmd r).keywords = some l) ∧
      (r.keywords ≠ none → (resolveSiteUpdate cmd r).keywords ≠ none) := by
  intro cmd r
  refine ⟨?_, ?_, ?_, ?_, ?_, ?_⟩
  · intro h
    simp [resolveSiteUpdate, resolveOptList, h]
  · intro l h
    simp [resolveSiteUpdate, resolveOptList, h]
  · intro h
    cases hc : cmd.categories <;>
      simp [resolveSiteUpdate, resolveOptList, hc, h]
  · intro h
    simp [resolveSiteUpdate, resolveOptList, h]
  · intro l h
    simp [resolveSiteUpdate, resolveOptList, h]
  · intro h
    cases hk : cmd.keywords <;>
      simp [resolveSiteUpdate, resolveOptList, hk, h]

/-- Witness for C7: against the concrete record whose categories are
explicitly set, an absent categories flag leaves them unchanged, a present
list sets it verbatim, and the result is never the absent state. -/
theorem claim7_witness :
    (resolveSiteUpdate noopSiteUpdate siteR).categories = siteR.categories ∧
    (resolveSiteUpdate setCatsSiteUpdate siteR).categories = some [("x")] ∧
    (resolveSiteUpdate setCatsSiteUpdate siteR).categories ≠ none :=
  ⟨(claim7_categories_keywords_not_resettable noopSiteUpdate siteR).1 rfl,
   (claim7_categories_keywords_not_resettable setCatsSiteUpdate siteR).2.1 [("x")] rfl,
   (claim7_categories_keywords_not_resettable setCatsSiteUpdate siteR).2.2.1 (by decide)⟩

/-- C8: on Site Install, omitting the categories flag yields a parsed command
whose categories field is the absent derive-from-manifest marker none, while
supplying an explicitly empty list yields some of the empty list verbatim, and
the two values are distinguishable; likewise for keywords. -/
theorem claim8_install_categories_distinguishable :
    ∀ (m : Url) (dm : Option Url) (pr : Option Nat) (su iu : Option Url)
      (nm ds : Option String) (kw ct : Option (List String))
      (noSys : Bool) (der pem : Option (List Path)) (certs hostnames : Bool),
      (parseSiteInstall m dm pr su iu nm ds none kw noSys der pem
        certs hostnames).categories = none ∧
      (parseSiteInstall m dm pr su iu nm ds (some []) kw noSys der pem
        certs hostnames).categories = some [] ∧
      some ([] : List String) ≠ (none : Option (List String)) ∧
      (parseSiteInstall m dm pr su iu nm ds ct none noSys der pem
        certs hostnames).keywords = none ∧
      (parseSiteInstall m dm pr su iu nm ds ct (some []) noSys der pem
        certs hostnames).keywords = some [] := by
  intro m dm pr su iu nm ds kw ct noSys der pem certs hostnames
  refine ⟨rfl, rfl, ?_, rfl, rfl⟩
  decide

/-- C10: a Site Install or Site Update invocation in which no TLS flag is
supplied yields the HTTP client configuration with both certificate-path
lists absent and both danger-override booleans false; and the four TLS fields
are mutually independent — each output field equals exactly its own input, so
setting any one flag leaves the other three at these defaults. -/
theorem claim10_tls_defaults_independent :
    ∀ (m : Url) (dm : Option Url) (pr : Option Nat) (su iu : Option Url)
      (nm ds : Option String) (ct kw : Option (List String)) (noSys : Bool)
      (idv : Nat) (tsu tiu : Option (Option Url)) (tnm tds : Option (Option String))
      (uct ukw uh up : Option (List String)) (noManifest noIcons noSys2 : Bool)
      (der pem : Option (List Path)) (certs hostnames : Bool),
      (parseSiteInstall m dm pr su iu nm ds ct kw noSys der pem
        certs hostnames).client = parseHTTPClientConfig der pem certs hostnames ∧
      (parseSiteUpdate idv tsu tiu tnm tds uct ukw uh up noManifest noIcons noSys2
        der pem certs hostnames).client = parseHTTPClientConfig der pem certs hostnames ∧
      parseHTTPClientConfig none none false false =
        { tls_root_certificates_der := none
          tls_root_certificates_pem := none
          tls_danger_accept_invalid_certs := false
          tls_danger_accept_invalid_hostnames := false } ∧
      (parseHTTPClientConfig der pem certs hostnames).tls_root_certificates_der = der ∧
      (parseHTTPClientConfig der pem certs hostnames).tls_root_certificates_pem = pem ∧
      (parseHTTPClientConfig der pem certs hostnames).tls_danger_accept_invalid_certs
        = certs ∧
      (parseHTTPClientConfig der pem certs hostnames).tls_danger_accept_invalid_hostnames
        = hostnames := by
  intro m dm pr su iu nm ds ct kw noSys idv tsu tiu tnm tds uct ukw uh up
    noManifest noIcons noSys2 der pem certs hostnames
  exact ⟨rfl, rfl, rfl, rfl, rfl, rfl, rfl⟩

/-! Helper lemmas for the identifier encoding. -/

/-- Decoding an encoded base32 digit recovers the digit. -/
theorem decodeChar_encodeChar : ∀ d : Nat, d < 32 → decodeChar (encodeChar d) = some d := by
  decide

/-- The fixed-width digit list has exactly the requested width. -/
theorem toBase32_length : ∀ (k n : Nat), (toBase32 k n).length = k := by
  intro k
  induction k with
  | zero => intro n; rfl
  | succ k ih => intro n; simp [toBase32, ih]

/-- Splitting one base32 digit off a remainder: the low k+1 digits of n are
the digit at position k followed by the low k digits. -/
theorem mod_pow_succ_32 (n k : Nat) :
    n % 32 ^ (k + 1) = n / 32 ^ k % 32 * 32 ^ k + n % 32 ^ k := by
  have hpow : (32 : Nat) ^ (k + 1) = 32 ^ k * 32 := by
    rw [pow_succ]
  have h1 : n % (32 ^ k * 32) % 32 ^ k = n % 32 ^ k :=
    Nat.mod_mod_of_dvd n ⟨32, rfl⟩
  have h2 : n % (32 ^ k * 32) / 32 ^ k = n / 32 ^ k % 32 :=
    Nat.mod_mul_right_div_self n (32 ^ k) 32
  calc n % 32 ^ (k + 1)
      = n % (32 ^ k * 32) := by rw [hpow]
    _ = 32 ^ k * (n % (32 ^ k * 32) / 32 ^ k) + n % (32 ^ k * 32) % 32 ^ k :=
        (Nat.div_add_mod _ _).symm
    _ = 32 ^ k * (n / 32 ^ k % 32) + n % 32 ^ k := by rw [h1, h2]
    _ = n / 32 ^ k % 32 * 32 ^ k + n % 32 ^ k := by ring

/-- Decoding the fixed-width encoding of n extends the accumulator by the low
k digits of n. -/
theorem fromBase32Aux_toBase32 :
    ∀ (k acc n : Nat), fromBase32Aux acc (toBase32 k n) = some (acc * 32 ^ k + n % 32 ^ k) := by
  intro k
  induction k with
  | zero =>
    intro acc n
    simp [toBase32, fromBase32Aux, Nat.mod_one]
  | succ k ih =>
    intro acc n
    have hd : n / 32 ^ k % 32 < 32 := Nat.mod_lt _ (by norm_num)
    calc fromBase32Aux acc (toBase32 (k + 1) n)
        = fromBase32Aux (acc * 32 + n / 32 ^ k % 32) (toBase32 k n) := by
          simp [toBase32, fromBase32Aux, decodeChar_encodeChar _ hd]
      _ = some ((acc * 32 + n / 32 ^ k % 32) * 32 ^ k + n % 32 ^ k) := ih _ n
      _ = some (acc * 32 ^ (k + 1) + n % 32 ^ (k + 1)) := by
          rw [mod_pow_succ_32]
          ring_nf

/-- Any value below 2 to the 128 renders to 26 characters and parses back to
itself. -/
theorem ulid_roundtrip_of_lt (n : Nat) (h : n < 2 ^ 128) :
    ulidParse (ulidRender n) = some n := by
  have hlen : (ulidRender n).length = 26 := by
    simp [ulidRender, String.length, toBase32_length]
  have hdata : (ulidRender n).data = toBase32 26 n := rfl
  have hbound : n < 32 ^ 26 := by
    have h32 : (32 : Nat) ^ 26 = 2 ^ 130 := by norm_num
    have : (2 : Nat) ^ 128 ≤ 2 ^ 130 := Nat.pow_le_pow_right (by norm_num) (by norm_num)
    omega
  rw [ulidParse, if_pos hlen, hdata, fromBase32Aux_toBase32,
    Nat.mod_eq_of_lt hbound]
  simp

/-- C9: every identifier produced by the generator — for any timestamp and
randomness input — rendered to its fixed-length text encoding and re-parsed,
round-trips to a value equal to the original. -/
theorem claim9_ulid_roundtrip :
    ∀ (t r : Nat), ulidParse (ulidRender (ulidGenerate t r)) = some (ulidGenerate t r) := by
  intro t r
  apply ulid_roundtrip_of_lt
  have h1 : t % 2 ^ 48 < 2 ^ 48 := Nat.mod_lt _ (by norm_num)
  have h2 : r % 2 ^ 80 < 2 ^ 80 := Nat.mod_lt _ (by norm_num)
  have h3 : t % 2 ^ 48 * 2 ^ 80 + 2 ^ 80 ≤ 2 ^ 48 * 2 ^ 80 := by
    have : (t % 2 ^ 48 + 1) * 2 ^ 80 ≤ 2 ^ 48 * 2 ^ 80 :=
      Nat.mul_le_mul_right _ (Nat.succ_le_of_lt h1)
    calc t % 2 ^ 48 * 2 ^ 80 + 2 ^ 80
        = (t % 2 ^ 48 + 1) * 2 ^ 80 := by ring
      _ ≤ 2 ^ 48 * 2 ^ 80 := this
  have h4 : (2 : Nat) ^ 48 * 2 ^ 80 = 2 ^ 128 := by norm_num
  calc ulidGenerate t r
      = t % 2 ^ 48 * 2 ^ 80 + r % 2 ^ 80 := rfl
    _ < t % 2 ^ 48 * 2 ^ 80 + 2 ^ 80 := by omega
    _ ≤ 2 ^ 48 * 2 ^ 80 := h3
    _ = 2 ^ 128 := h4

end PWAsForFirefox
